import Mathlib

/-!
Verification development for the Indian Railway Tracker engine
(`src/script.js`): a shallow embedding of the geodesic math, the route
data model, the live-API mapping, the route provider with its fallback
policy, the parity-based progress estimator, the ETA computation and the
marker animation, together with theorems settling the specified
properties.

JS numbers are modelled as real numbers (`ℝ`), JS exceptions as
`Except String`, and the keyed `localStorage` cursor as an explicit
`ProgressState` value threaded through calls.
-/

namespace RailTracker

/-- Embeds `haversine(a, b)` from `src/script.js`: great-circle distance in
km between two `[lat, lng]` pairs, Earth radius 6371 km. -/
noncomputable def haversine (a b : ℝ × ℝ) : ℝ :=
  let R : ℝ := 6371
  let toRad : ℝ → ℝ := fun d => d * Real.pi / 180
  let dLat := toRad (b.1 - a.1)
  let dLon := toRad (b.2 - a.2)
  let lat1 := toRad a.1
  let lat2 := toRad b.1
  let h := Real.sin (dLat / 2) ^ 2 +
    Real.cos lat1 * Real.cos lat2 * Real.sin (dLon / 2) ^ 2
  2 * R * Real.arcsin (Real.sqrt h)

/-- Embeds `polyDistanceKm(points)`: the loop
`for(i=1;i<points.length;i++) sum += haversine(points[i-1], points[i])`
written as structural recursion over the list of points. -/
noncomputable def polyDistanceKm : List (ℝ × ℝ) → ℝ
  | [] => 0
  | [_] => 0
  | a :: b :: rest => haversine a b + polyDistanceKm (b :: rest)

/-- A station record of the internal route format
`{code, name, lat, lng, sch, act}`. -/
structure Station where
  code : String
  name : String
  lat : ℝ
  lng : ℝ
  sch : String
  act : String

/-- The internal route format
`{trainNo, trainName, delayMinutes, stations}`. -/
structure Route where
  trainNo : String
  trainName : String
  delayMinutes : ℤ
  stations : List Station

/-- A station object of a live-API payload; `none` models an absent
(or otherwise falsy-missing) field. `lat`/`lng` are copied through by the
mapping without inspection, so they are modelled as plain numbers. -/
structure ApiStation where
  code : Option String
  name : Option String
  lat : ℝ
  lng : ℝ
  scheduled : Option String
  actual : Option String

/-- A live-API JSON payload. `trainNo = ""` models both a missing and an
empty `trainNo` (both are falsy, and the code only tests truthiness);
`stations = none` models a `stations` field that is not an array. -/
structure ApiPayload where
  trainNo : String
  trainName : Option String
  delayMinutes : Option ℤ
  stations : Option (List ApiStation)

/-- JS `v || dflt` on an optional string: missing and the empty string are
both falsy. -/
def jsOr (v : Option String) (dflt : String) : String :=
  match v with
  | none => dflt
  | some s => if s = "" then dflt else s

/-- The station mapper inside `mapApiToRoute`:
`s => ({code: s.code || '', name: s.name || '', lat: s.lat, lng: s.lng,
sch: s.scheduled || '', act: s.actual || ''})`. -/
def mapStation (s : ApiStation) : Station :=
  { code := jsOr s.code ""
    name := jsOr s.name ""
    lat := s.lat
    lng := s.lng
    sch := jsOr s.scheduled ""
    act := jsOr s.actual "" }

/-- Embeds `mapApiToRoute(json)`: throws `'Unexpected API schema'` when
`!json.trainNo` or `!Array.isArray(json.stations)`; otherwise builds the
internal route with `trainName: json.trainName || 'Live Train'`,
`delayMinutes: json.delayMinutes || 0` and the mapped stations.
(`json.delayMinutes || 0` equals `json.delayMinutes` on any non-zero
number and `0` otherwise, i.e. `Option.getD 0` on the integer model.) -/
def mapApiToRoute (json : ApiPayload) : Except String Route :=
  if json.trainNo = "" then
    .error "Unexpected API schema"
  else
    match json.stations with
    | none => .error "Unexpected API schema"
    | some sts =>
      .ok { trainNo := json.trainNo
            trainName := jsOr json.trainName "Live Train"
            delayMinutes := json.delayMinutes.getD 0
            stations := sts.map mapStation }

/-- The static fallback dataset `MOCK_ROUTES["INR12627"]`. -/
noncomputable def mockRoute : Route :=
  { trainNo := "INR12627"
    trainName := "BharatCourier Express (Demo)"
    delayMinutes := 0
    stations :=
      [ { code := "CSMT", name := "Mumbai CSMT", lat := 19.0760,
          lng := 72.8777, sch := "08:00", act := "08:00" }
      , { code := "PUNE", name := "Pune Jn", lat := 18.5204,
          lng := 73.8567, sch := "12:30", act := "12:30" }
      , { code := "HYB", name := "Hyderabad Deccan", lat := 17.3850,
          lng := 78.4867, sch := "20:30", act := "20:35" }
      , { code := "SBC", name := "Bengaluru City", lat := 12.9716,
          lng := 77.5946, sch := "05:30", act := "05:45" }
      , { code := "MAS", name := "Chennai Central", lat := 13.0827,
          lng := 80.2707, sch := "11:30", act := "11:35" } ] }

/-- The keyed lookup in the static dataset with its default:
`MOCK_ROUTES[trainNo] || MOCK_ROUTES["INR12627"]`. -/
noncomputable def fallbackRoute (trainNo : String) : Route :=
  (if trainNo = "INR12627" then some mockRoute else none).getD mockRoute

/-- Outcome of one attempted live fetch in `tryFetchLiveRoute`:
`networkFailure` covers a rejected `fetch`, a non-ok response status and a
body that is not JSON; `payload j` is a successfully parsed JSON body
(which still has to survive `mapApiToRoute`). -/
inductive Outcome where
  | networkFailure
  | payload (j : ApiPayload)

/-- The live path of `tryFetchLiveRoute(trainNo, apiUrl, apiKey)` for a
configured URL: a network-level failure throws, a parsed body goes through
`mapApiToRoute`. -/
def liveAttempt (o : Outcome) : Except String Route :=
  match o with
  | .networkFailure => .error "API error"
  | .payload j => mapApiToRoute j

/-- Embeds the provider closure returned by
`getRouteProvider(trainNo)` and its surrounding branch: with
`useLive && apiUrl` it tries the live fetch, throws `'Empty route'` on a
mapped route with no stations, and catches every failure by returning the
static fallback; without a configured live provider it returns the
fallback directly. Totality of this function is the embedding of
"the provider never raises". -/
noncomputable def routeProvider (useLive : Bool) (apiUrl trainNo : String)
    (o : Outcome) : Route :=
  if useLive = true ∧ apiUrl ≠ "" then
    match liveAttempt o with
    | .ok r => if r.stations.length = 0 then fallbackRoute trainNo else r
    | .error _ => fallbackRoute trainNo
  else
    fallbackRoute trainNo

/-- The failure paths of the provider: no live provider configured, a
failed live attempt (network failure or mapping failure), or a mapped
route with an empty waypoint list. -/
def failurePath (useLive : Bool) (apiUrl : String) (o : Outcome) : Prop :=
  ¬(useLive = true ∧ apiUrl ≠ "") ∨
    (∃ e, liveAttempt o = .error e) ∨
    (∃ r, liveAttempt o = .ok r ∧ r.stations.length = 0)

/-- The persisted cursor state for one route key: `rail_idx:<key>` and
`rail_toggle:<key>` in `localStorage`, both read back with `parseInt`. -/
structure ProgressState where
  idx : ℤ
  toggle : ℤ
deriving DecidableEq

/-- Embeds `estimateCurrentIndex(stations)` with the `localStorage` cell
passed explicitly: clamp the stored index into
`[0, stations.length - 2]` via `Math.min(Math.max(idx, 0), len - 2)`,
flip the parity toggle with `(stored + 1) % 2` (JS `%` is truncated
remainder, `Int.tmod`), advance when the new toggle is `0` and the index
is below `len - 2`, persist both, return the index. Returns the returned
index together with the new persisted state. -/
def estimateCurrentIndex (stations : List Station) (s : ProgressState) :
    ℤ × ProgressState :=
  let idx := min (max s.idx 0) ((stations.length : ℤ) - 2)
  let t := (s.toggle + 1).tmod 2
  let idx2 := if t = 0 ∧ idx < (stations.length : ℤ) - 2 then idx + 1 else idx
  (idx2, ⟨idx2, t⟩)

/-- The persisted state after one poll of `estimateCurrentIndex`. -/
def stepState (stations : List Station) (s : ProgressState) : ProgressState :=
  (estimateCurrentIndex stations s).2

/-- The persisted state after `k` polls of `estimateCurrentIndex`,
starting from persisted state `s`. -/
def runFrom (stations : List Station) (s : ProgressState) : ℕ → ProgressState
  | 0 => s
  | k + 1 => stepState stations (runFrom stations s k)

/-- The index returned by the `(k+1)`-th poll of `estimateCurrentIndex`
(`k = 0` is the first call), starting from persisted state `s`. -/
def returnedAt (stations : List Station) (s : ProgressState) (k : ℕ) : ℤ :=
  (estimateCurrentIndex stations (runFrom stations s k)).1

/-- Embeds the position computed by the `step` callback of
`animateMarker(from, to, duration)` at frame timestamp `now`:
`p = Math.min((now - start) / duration, 1)`, then linear interpolation of
lat and lng. (`start` is the captured `animStartTs`.) -/
noncomputable def markerPos (a b : ℝ × ℝ) (start duration now : ℝ) : ℝ × ℝ :=
  let p := min ((now - start) / duration) 1
  (a.1 + (b.1 - a.1) * p, a.2 + (b.2 - a.2) * p)

/-- Embeds the computation of `updateEta(stations, currentIdx)` with
`Date.now()` passed as `now`: remaining km over
`points.slice(currentIdx)` and the ETA timestamp at an assumed cruising
speed of 70 km/h; the DOM writes and the countdown repaint are
presentation only and carry no further computation on these values.
Returns `(remainingKm, etaMs)`. -/
noncomputable def updateEta (stations : List Station) (currentIdx : ℕ)
    (now : ℝ) : ℝ × ℝ :=
  let points := stations.map fun s => (s.lat, s.lng)
  let remainingPoints := points.drop currentIdx
  let remainingKm := polyDistanceKm remainingPoints
  let avgKmph : ℝ := 70
  let hours := remainingKm / avgKmph
  (remainingKm, now + hours * 3600 * 1000)

/-- A concrete live-API station used to exercise the mapping: missing
`code` and `scheduled`, present `name` and `actual`. -/
noncomputable def sampleApiStation : ApiStation :=
  { code := none, name := some "A", lat := 1, lng := 2,
    scheduled := none, actual := some "x" }

/-- A concrete well-formed live-API payload with one station. -/
noncomputable def samplePayload : ApiPayload :=
  { trainNo := "T", trainName := none, delayMinutes := none,
    stations := some [sampleApiStation] }

/-- A concrete live-API payload whose `stations` field is an empty
array. -/
def emptyStationsPayload : ApiPayload :=
  { trainNo := "T1", trainName := none, delayMinutes := none,
    stations := some [] }

/-! ### GeoMath lemmas -/

lemma haversine_def (a b : ℝ × ℝ) : haversine a b =
    2 * 6371 * Real.arcsin (Real.sqrt
      (Real.sin ((b.1 - a.1) * Real.pi / 180 / 2) ^ 2 +
        Real.cos (a.1 * Real.pi / 180) * Real.cos (b.1 * Real.pi / 180) *
          Real.sin ((b.2 - a.2) * Real.pi / 180 / 2) ^ 2)) := rfl

lemma haversine_nonneg (a b : ℝ × ℝ) : 0 ≤ haversine a b := by
  rw [haversine_def]
  have h := Real.arcsin_nonneg.2 (Real.sqrt_nonneg
    (Real.sin ((b.1 - a.1) * Real.pi / 180 / 2) ^ 2 +
      Real.cos (a.1 * Real.pi / 180) * Real.cos (b.1 * Real.pi / 180) *
        Real.sin ((b.2 - a.2) * Real.pi / 180 / 2) ^ 2))
  linarith

/-- C9: `distanceKm` (the `haversine` function) is symmetric in its two
arguments, and the distance from any point to itself is `0`. -/
theorem haversine_symm_self :
    (∀ a b : ℝ × ℝ, haversine a b = haversine b a) ∧
      ∀ a : ℝ × ℝ, haversine a a = 0 := by
  constructor
  · intro a b
    rw [haversine_def, haversine_def]
    have h1 : (a.1 - b.1) * Real.pi / 180 / 2 =
        -((b.1 - a.1) * Real.pi / 180 / 2) := by ring
    have h2 : (a.2 - b.2) * Real.pi / 180 / 2 =
        -((b.2 - a.2) * Real.pi / 180 / 2) := by ring
    rw [h1, h2, Real.sin_neg, Real.sin_neg]
    ring_nf
  · intro a
    rw [haversine_def]
    simp

lemma polyDistanceKm_nil : polyDistanceKm [] = 0 := rfl

lemma polyDistanceKm_single (a : ℝ × ℝ) : polyDistanceKm [a] = 0 := rfl

lemma polyDistanceKm_cons_cons (a b : ℝ × ℝ) (rest : List (ℝ × ℝ)) :
    polyDistanceKm (a :: b :: rest) =
      haversine a b + polyDistanceKm (b :: rest) := rfl

lemma polyDistanceKm_tail_le :
    ∀ pts : List (ℝ × ℝ), polyDistanceKm pts.tail ≤ polyDistanceKm pts
  | [] => le_refl 0
  | [_] => le_refl 0
  | a :: b :: rest => by
    rw [List.tail_cons, polyDistanceKm_cons_cons]
    have := haversine_nonneg a b
    linarith

lemma polyDistanceKm_drop_succ_le (pts : List (ℝ × ℝ)) (n : ℕ) :
    polyDistanceKm (pts.drop (n + 1)) ≤ polyDistanceKm (pts.drop n) := by
  rw [← List.tail_drop]
  exact polyDistanceKm_tail_le _

/-- C8: the path distance of the suffix of a point list starting at `j` is
at most the path distance of the suffix starting at `i`, whenever
`i ≤ j` — `polyDistanceKm` over suffixes is non-increasing in the slice
starting index. -/
theorem polyDistanceKm_drop_antitone (pts : List (ℝ × ℝ)) (i j : ℕ)
    (hij : i ≤ j) :
    polyDistanceKm (pts.drop j) ≤ polyDistanceKm (pts.drop i) := by
  induction j, hij using Nat.le_induction with
  | base => exact le_refl _
  | succ n hn ih => exact le_trans (polyDistanceKm_drop_succ_le pts n) ih

/-- Witness for C8 at a concrete point list and indices `1 ≤ 2`. -/
theorem polyDistanceKm_drop_antitone_witness :
    (1 : ℕ) ≤ 2 ∧
      polyDistanceKm (([((0 : ℝ), (0 : ℝ)), (1, 1), (2, 2)]).drop 2) ≤
        polyDistanceKm (([((0 : ℝ), (0 : ℝ)), (1, 1), (2, 2)]).drop 1) :=
  ⟨by norm_num,
    polyDistanceKm_drop_antitone [((0 : ℝ), (0 : ℝ)), (1, 1), (2, 2)] 1 2
      (by norm_num)⟩

/-! ### ProgressEstimator lemmas -/

lemma estimateCurrentIndex_fst (stations : List Station) (s : ProgressState) :
    (estimateCurrentIndex stations s).1 =
      if (s.toggle + 1).tmod 2 = 0 ∧
          min (max s.idx 0) ((stations.length : ℤ) - 2) <
            (stations.length : ℤ) - 2 then
        min (max s.idx 0) ((stations.length : ℤ) - 2) + 1
      else
        min (max s.idx 0) ((stations.length : ℤ) - 2) := rfl

lemma estimateCurrentIndex_snd_idx (stations : List Station)
    (s : ProgressState) :
    (estimateCurrentIndex stations s).2.idx =
      (estimateCurrentIndex stations s).1 := rfl

lemma estimateCurrentIndex_snd_toggle (stations : List Station)
    (s : ProgressState) :
    (estimateCurrentIndex stations s).2.toggle = (s.toggle + 1).tmod 2 := rfl

lemma estimateCurrentIndex_fst_bounds (stations : List Station)
    (s : ProgressState) (hn : 2 ≤ stations.length) :
    0 ≤ (estimateCurrentIndex stations s).1 ∧
      (estimateCurrentIndex stations s).1 ≤ (stations.length : ℤ) - 2 := by
  have hN : (2 : ℤ) ≤ (stations.length : ℤ) := by exact_mod_cast hn
  have hmin0 : 0 ≤ min (max s.idx 0) ((stations.length : ℤ) - 2) :=
    le_min (le_max_right _ _) (by linarith)
  have hmin1 : min (max s.idx 0) ((stations.length : ℤ) - 2) ≤
      (stations.length : ℤ) - 2 := min_le_right _ _
  rw [estimateCurrentIndex_fst]
  split_ifs with h
  · exact ⟨by linarith, Int.add_one_le_iff.2 h.2⟩
  · exact ⟨hmin0, hmin1⟩

lemma estimateCurrentIndex_fst_inrange (stations : List Station)
    (s : ProgressState) (h0 : 0 ≤ s.idx)
    (h1 : s.idx ≤ (stations.length : ℤ) - 2) :
    (estimateCurrentIndex stations s).1 =
      if (s.toggle + 1).tmod 2 = 0 ∧ s.idx < (stations.length : ℤ) - 2 then
        s.idx + 1
      else
        s.idx := by
  have hclamp : min (max s.idx 0) ((stations.length : ℤ) - 2) = s.idx := by
    rw [max_eq_left h0, min_eq_left h1]
  rw [estimateCurrentIndex_fst, hclamp]

lemma runFrom_succ_idx (stations : List Station) (s : ProgressState) (k : ℕ) :
    (runFrom stations s (k + 1)).idx = returnedAt stations s k := rfl

/-- C2: for a route with at least 2 waypoints and any persisted start
state whose stored index is a natural number, every call in a sequence of
polls of `estimateCurrentIndex` returns an index in
`[0, stations.length - 2]`, and the persisted `waypointIndex` lies in the
same interval after each call. -/
theorem estimateCurrentIndex_bounds (stations : List Station)
    (s : ProgressState) (hn : 2 ≤ stations.length) (hs : 0 ≤ s.idx) (k : ℕ) :
    (0 ≤ returnedAt stations s k ∧
      returnedAt stations s k ≤ (stations.length : ℤ) - 2) ∧
      0 ≤ (runFrom stations s (k + 1)).idx ∧
        (runFrom stations s (k + 1)).idx ≤ (stations.length : ℤ) - 2 := by
  have hb := estimateCurrentIndex_fst_bounds stations (runFrom stations s k) hn
  exact ⟨hb, by rw [runFrom_succ_idx]; exact hb⟩

/-- Witness for C2: the demo route (5 stations), start state
`{waypointIndex := 0, parityToggle := 0}`, third call. -/
theorem estimateCurrentIndex_bounds_witness :
    2 ≤ mockRoute.stations.length ∧ 0 ≤ (⟨0, 0⟩ : ProgressState).idx ∧
      ((0 ≤ returnedAt mockRoute.stations ⟨0, 0⟩ 2 ∧
        returnedAt mockRoute.stations ⟨0, 0⟩ 2 ≤
          (mockRoute.stations.length : ℤ) - 2) ∧
        0 ≤ (runFrom mockRoute.stations ⟨0, 0⟩ 3).idx ∧
          (runFrom mockRoute.stations ⟨0, 0⟩ 3).idx ≤
            (mockRoute.stations.length : ℤ) - 2) :=
  ⟨by norm_num [mockRoute], by decide,
    estimateCurrentIndex_bounds mockRoute.stations ⟨0, 0⟩
      (by norm_num [mockRoute]) (by decide) 2⟩

/-- C4: across a sequence of polls the returned index never decreases,
between two consecutive calls it grows by at most 1, and it grows by
exactly 1 precisely when the newly flipped parity toggle of the later
call equals 0 and the (clamped) index is below `stations.length - 2`. -/
theorem estimateCurrentIndex_monotone (stations : List Station)
    (s : ProgressState) (hn : 2 ≤ stations.length) (hs : 0 ≤ s.idx) (k : ℕ) :
    returnedAt stations s k ≤ returnedAt stations s (k + 1) ∧
      returnedAt stations s (k + 1) ≤ returnedAt stations s k + 1 ∧
      (returnedAt stations s (k + 1) = returnedAt stations s k + 1 ↔
        ((runFrom stations s (k + 1)).toggle + 1).tmod 2 = 0 ∧
          returnedAt stations s k < (stations.length : ℤ) - 2) := by
  have hb := estimateCurrentIndex_fst_bounds stations (runFrom stations s k) hn
  have hr : returnedAt stations s (k + 1) =
      if ((runFrom stations s (k + 1)).toggle + 1).tmod 2 = 0 ∧
          returnedAt stations s k < (stations.length : ℤ) - 2 then
        returnedAt stations s k + 1
      else
        returnedAt stations s k := by
    have h := estimateCurrentIndex_fst_inrange stations
      (runFrom stations s (k + 1))
      (by rw [runFrom_succ_idx]; exact hb.1)
      (by rw [runFrom_succ_idx]; exact hb.2)
    rw [runFrom_succ_idx] at h
    exact h
  by_cases hc : ((runFrom stations s (k + 1)).toggle + 1).tmod 2 = 0 ∧
      returnedAt stations s k < (stations.length : ℤ) - 2
  · rw [hr, if_pos hc]
    exact ⟨by linarith, le_refl _, iff_of_true rfl hc⟩
  · rw [hr, if_neg hc]
    exact ⟨le_refl _, by linarith, iff_of_false (by simp) hc⟩

/-- Witness for C4: the demo route, start state `{0, 0}`, calls 2 and 3. -/
theorem estimateCurrentIndex_monotone_witness :
    2 ≤ mockRoute.stations.length ∧ 0 ≤ (⟨0, 0⟩ : ProgressState).idx ∧
      returnedAt mockRoute.stations ⟨0, 0⟩ 1 ≤
        returnedAt mockRoute.stations ⟨0, 0⟩ 2 :=
  ⟨by norm_num [mockRoute], by decide,
    (estimateCurrentIndex_monotone mockRoute.stations ⟨0, 0⟩
      (by norm_num [mockRoute]) (by decide) 1).1⟩

/-- C5: once the persisted cursor equals `stations.length - 2`, every
later poll returns `stations.length - 2` and leaves the persisted
`waypointIndex` there — the cursor never advances past the final
segment. -/
theorem estimateCurrentIndex_holds_last (stations : List Station)
    (s : ProgressState) (hn : 2 ≤ stations.length)
    (hs : s.idx = (stations.length : ℤ) - 2) (k : ℕ) :
    returnedAt stations s k = (stations.length : ℤ) - 2 ∧
      (runFrom stations s (k + 1)).idx = (stations.length : ℤ) - 2 := by
  have hN : (2 : ℤ) ≤ (stations.length : ℤ) := by exact_mod_cast hn
  have key : ∀ m, (runFrom stations s m).idx = (stations.length : ℤ) - 2 := by
    intro m
    induction m with
    | zero => exact hs
    | succ m ih =>
      have hstep := estimateCurrentIndex_fst_inrange stations
        (runFrom stations s m) (by rw [ih]; linarith) (le_of_eq ih)
      have hfst : (estimateCurrentIndex stations (runFrom stations s m)).1 =
          (runFrom stations s m).idx := by
        rw [hstep, if_neg]
        rintro ⟨-, hlt⟩
        rw [ih] at hlt
        exact lt_irrefl _ hlt
      calc (runFrom stations s (m + 1)).idx
          = (estimateCurrentIndex stations (runFrom stations s m)).1 := rfl
        _ = (runFrom stations s m).idx := hfst
        _ = (stations.length : ℤ) - 2 := ih
  exact ⟨key (k + 1), key (k + 1)⟩

/-- Witness for C5: the demo route (5 stations), start state
`{waypointIndex := 3, parityToggle := 1}`, second call. -/
theorem estimateCurrentIndex_holds_last_witness :
    2 ≤ mockRoute.stations.length ∧
      (⟨3, 1⟩ : ProgressState).idx = (mockRoute.stations.length : ℤ) - 2 ∧
      returnedAt mockRoute.stations ⟨3, 1⟩ 1 =
        (mockRoute.stations.length : ℤ) - 2 :=
  ⟨by norm_num [mockRoute], by norm_num [mockRoute],
    (estimateCurrentIndex_holds_last mockRoute.stations ⟨3, 1⟩
      (by norm_num [mockRoute]) (by norm_num [mockRoute]) 1).1⟩

/-! ### EtaCalculator -/

/-- C6: for any waypoint list, in-bounds current index and timestamp,
`updateEta` yields a remaining distance equal to `polyDistanceKm` of the
coordinates of the waypoint suffix starting at the current index, and an
ETA timestamp of `now + (remainingKm / 70) * 3600 * 1000` milliseconds,
with the cruise speed fixed at 70 km/h. -/
theorem updateEta_spec (stations : List Station) (currentIdx : ℕ) (now : ℝ)
    (hidx : currentIdx ≤ stations.length) :
    (updateEta stations currentIdx now).1 =
      polyDistanceKm ((stations.drop currentIdx).map fun s => (s.lat, s.lng)) ∧
      (updateEta stations currentIdx now).2 =
        now + (updateEta stations currentIdx now).1 / 70 * 3600 * 1000 := by
  constructor
  · show polyDistanceKm ((stations.map fun s => (s.lat, s.lng)).drop currentIdx) = _
    rw [List.map_drop]
  · rfl

/-- Witness for C6: the demo stations, current index 1, `now = 0`. -/
theorem updateEta_spec_witness :
    (1 : ℕ) ≤ mockRoute.stations.length ∧
      (updateEta mockRoute.stations 1 0).1 =
        polyDistanceKm
          ((mockRoute.stations.drop 1).map fun s => (s.lat, s.lng)) :=
  ⟨by norm_num [mockRoute],
    (updateEta_spec mockRoute.stations 1 0 (by norm_num [mockRoute])).1⟩

/-! ### PositionAnimator -/

lemma markerPos_def (a b : ℝ × ℝ) (start d now : ℝ) :
    markerPos a b start d now =
      (a.1 + (b.1 - a.1) * min ((now - start) / d) 1,
        a.2 + (b.2 - a.2) * min ((now - start) / d) 1) := rfl

/-- Counterexample for C3 as stated: the animator does not clamp the
progress below at 0, so for `now` strictly before `start` the displayed
position is extrapolated past `from` instead of being held at `from`:
with `from = (0,0)`, `to = (1,1)`, `start = 4000`, `duration = 4000` and
`now = 0 ≤ start` the position is `(-1,-1) ≠ from`. -/
theorem markerPos_before_start_counterexample :
    (0 : ℝ) < 4000 ∧ (0 : ℝ) ≤ 4000 ∧
      markerPos (0, 0) (1, 1) 4000 4000 0 ≠ (0, 0) := by
  refine ⟨by norm_num, by norm_num, ?_⟩
  have hm : markerPos (0, 0) (1, 1) 4000 4000 0 = (-1, -1) := by
    rw [markerPos_def]
    norm_num [min_def]
  rw [hm]
  norm_num [Prod.ext_iff]

/-- C3 (amended): for duration `d > 0` the animator displays
`lat = from.lat + (to.lat - from.lat) * p` (likewise for lng) with
`p = min((now - start)/d, 1)`; this agrees with the clamped progress
`clamp((now - start)/d, 0, 1)` for every `now ≥ start`, the position at
`start + d/2` is the exact midpoint, the position equals `to` for every
`now ≥ start + d`, and it equals `from` at `now = start` (for `now`
strictly before `start` there is no lower clamp). -/
theorem animateMarker_interpolation (a b : ℝ × ℝ) (start d : ℝ)
    (hd : 0 < d) :
    (∀ now, start ≤ now →
      markerPos a b start d now =
        (a.1 + (b.1 - a.1) * max (min ((now - start) / d) 1) 0,
          a.2 + (b.2 - a.2) * max (min ((now - start) / d) 1) 0)) ∧
      markerPos a b start d (start + d / 2) =
        ((a.1 + b.1) / 2, (a.2 + b.2) / 2) ∧
      (∀ now, start + d ≤ now → markerPos a b start d now = b) ∧
      markerPos a b start d start = a := by
  refine ⟨?_, ?_, ?_, ?_⟩
  · intro now hnow
    have h0 : (0 : ℝ) ≤ (now - start) / d :=
      div_nonneg (by linarith) (le_of_lt hd)
    have hmax : max (min ((now - start) / d) 1) 0 =
        min ((now - start) / d) 1 :=
      max_eq_left (le_min h0 zero_le_one)
    rw [markerPos_def, hmax]
  · have hp : (start + d / 2 - start) / d = 1 / 2 := by
      rw [show start + d / 2 - start = d / 2 by ring]
      field_simp
      ring
    have hm : min ((start + d / 2 - start) / d) 1 = 1 / 2 := by
      rw [hp]
      exact min_eq_left (by norm_num)
    rw [markerPos_def, hm]
    simp only [Prod.mk.injEq]
    constructor <;> ring
  · intro now hnow
    have h1 : (1 : ℝ) ≤ (now - start) / d :=
      (one_le_div hd).2 (by linarith)
    have hm : min ((now - start) / d) 1 = 1 := min_eq_right h1
    rw [markerPos_def, hm, Prod.ext_iff]
    constructor <;> ring
  · have hm : min ((start - start) / d) 1 = 0 := by
      rw [sub_self, zero_div]
      exact min_eq_left zero_le_one
    rw [markerPos_def, hm]
    simp

/-- Witness for C3 (amended): `from = (0,0)`, `to = (2,2)`,
`start = 0`, `duration = 4000`; the position at `start + d/2` is the
midpoint `(1,1)`. -/
theorem animateMarker_interpolation_witness :
    (0 : ℝ) < 4000 ∧
      markerPos (0, 0) (2, 2) 0 4000 (0 + 4000 / 2) =
        (((0 : ℝ) + 2) / 2, ((0 : ℝ) + 2) / 2) :=
  ⟨by norm_num,
    (animateMarker_interpolation (0, 0) (2, 2) 0 4000 (by norm_num)).2.1⟩

/-! ### RouteSource: live-API mapping -/

lemma jsOr_empty_default (o : Option String) : jsOr o "" = o.getD "" := by
  cases o with
  | none => rfl
  | some s =>
    simp only [jsOr, Option.getD_some]
    split_ifs with h
    · exact h.symm
    · rfl

/-- Counterexample for C7 as stated: `mapApiToRoute` accepts a payload
whose `stations` array is empty — only a falsy `trainNo` or a
non-array `stations` field raise there (the emptiness check happens
later, in the provider returned by `getRouteProvider`). -/
theorem mapApiToRoute_empty_stations_counterexample :
    mapApiToRoute emptyStationsPayload =
      Except.ok { trainNo := "T1", trainName := "Live Train",
                  delayMinutes := 0, stations := [] } := rfl

/-- C7 (amended): `mapApiToRoute` raises a mapping failure exactly when
the payload lacks a non-empty (truthy) `trainNo` or its `stations` field
is not an array; an empty `stations` array is mapped successfully. -/
theorem mapApiToRoute_error_iff (p : ApiPayload) :
    (∃ e, mapApiToRoute p = Except.error e) ↔
      p.trainNo = "" ∨ p.stations = none := by
  by_cases h : p.trainNo = ""
  · simp [mapApiToRoute, h]
  · cases hs : p.stations with
    | none => simp [mapApiToRoute, h, hs]
    | some l => simp [mapApiToRoute, h, hs]

/-- C10: on any payload accepted by the mapping (non-empty `trainNo` and
a `stations` array), the mapped route keeps the payload's waypoint count,
passes each station's `lat` and `lng` through unchanged, substitutes the
empty string for missing `code`, `name` and schedule strings, and
defaults `delayMinutes` to 0. -/
theorem mapApiToRoute_preserves_stations (p : ApiPayload)
    (l : List ApiStation) (h1 : p.trainNo ≠ "") (h2 : p.stations = some l) :
    mapApiToRoute p = Except.ok
      { trainNo := p.trainNo
        trainName := jsOr p.trainName "Live Train"
        delayMinutes := p.delayMinutes.getD 0
        stations := l.map mapStation } ∧
      (l.map mapStation).length = l.length ∧
      ∀ s ∈ l, (mapStation s).lat = s.lat ∧ (mapStation s).lng = s.lng ∧
        (mapStation s).code = s.code.getD "" ∧
        (mapStation s).name = s.name.getD "" ∧
        (mapStation s).sch = s.scheduled.getD "" ∧
        (mapStation s).act = s.actual.getD "" := by
  refine ⟨?_, List.length_map _ _, ?_⟩
  · simp [mapApiToRoute, h1, h2]
  · intro s _
    simp [mapStation, jsOr_empty_default]

/-- Witness for C10: the sample one-station payload. -/
theorem mapApiToRoute_preserves_stations_witness :
    samplePayload.trainNo ≠ "" ∧
      samplePayload.stations = some [sampleApiStation] ∧
      mapApiToRoute samplePayload = Except.ok
        { trainNo := samplePayload.trainNo
          trainName := jsOr samplePayload.trainName "Live Train"
          delayMinutes := samplePayload.delayMinutes.getD 0
          stations := [sampleApiStation].map mapStation } :=
  ⟨by simp [samplePayload], rfl,
    (mapApiToRoute_preserves_stations samplePayload [sampleApiStation]
      (by simp [samplePayload]) rfl).1⟩

/-! ### RouteSource: provider fallback policy -/

lemma fallbackRoute_eq (trainNo : String) :
    fallbackRoute trainNo = mockRoute := by
  unfold fallbackRoute
  split_ifs <;> rfl

/-- C1: the provider returned by `getRouteProvider` is a total function of
the fetch outcome (it never raises), and on every failure path — no live
provider configured, network failure, mapping failure, or a mapped route
with an empty waypoint list — it resolves to the static fallback route,
which satisfies the Route invariant of having at least 2 waypoints. -/
theorem routeProvider_failure_fallback (useLive : Bool)
    (apiUrl trainNo : String) (o : Outcome)
    (h : failurePath useLive apiUrl o) :
    routeProvider useLive apiUrl trainNo o = fallbackRoute trainNo ∧
      2 ≤ (fallbackRoute trainNo).stations.length := by
  constructor
  · rcases h with h | ⟨e, he⟩ | ⟨r, hr, hlen⟩
    · simp [routeProvider, h]
    · by_cases hc : useLive = true ∧ apiUrl ≠ ""
      · simp [routeProvider, hc, he]
      · simp [routeProvider, hc]
    · by_cases hc : useLive = true ∧ apiUrl ≠ ""
      · simp [routeProvider, hc, hr, hlen]
      · simp [routeProvider, hc]
  · rw [fallbackRoute_eq]
    norm_num [mockRoute]

/-- Witness for C1: no live provider configured, a network failure
outcome, an unknown train id. -/
theorem routeProvider_failure_fallback_witness :
    failurePath false "" Outcome.networkFailure ∧
      routeProvider false "" "XY" Outcome.networkFailure =
        fallbackRoute "XY" ∧
      2 ≤ (fallbackRoute "XY").stations.length :=
  ⟨Or.inl (by simp),
    (routeProvider_failure_fallback false "" "XY" Outcome.networkFailure
      (Or.inl (by simp))).1,
    (routeProvider_failure_fallback false "" "XY" Outcome.networkFailure
      (Or.inl (by simp))).2⟩

end RailTracker
